import Mathlib

/-!
Verification of the binary format detection and field-extraction engine of
rom-properties, as embodied by the BRSTM, N64 and PSF format modules and the
audio text-formatting helpers in librpbase/TextFuncs.cpp.

The embedding is shallow: C structs become Lean structures, machine integers
become `Nat` values carrying their raw (as-stored) representation, fallible
reads become `Option`, and the host is modelled as little-endian (the common
build configuration; all comparisons in the embedded code are representation
level, so the choice only fixes which concrete constants appear).
-/

namespace RomProps

/-! ## Endian / byteswap utilities (librpbase/byteswap.h)

`byteswap.h` is not under `src/`; these are the standard byte-swapping
primitives its macros implement, as described by the spec's
"Endian/Byteswap utilities" component. -/

/-- Byte `i` (in little-endian position order) of a natural number. -/
def byteAt (x i : Nat) : Nat := (x / 256 ^ i) % 256

/-- Modelled from the spec: `__swab16` from byteswap.h (not under `src/`) —
16-bit byteswap: exchange the two bytes of a 16-bit value. -/
def swab16 (x : Nat) : Nat := byteAt x 0 * 256 + byteAt x 1

/-- Modelled from the spec: `__swab32` from byteswap.h (not under `src/`) —
32-bit byteswap: reverse the four bytes of a 32-bit value. -/
def swab32 (x : Nat) : Nat :=
  byteAt x 0 * 2 ^ 24 + byteAt x 1 * 2 ^ 16 + byteAt x 2 * 2 ^ 8 + byteAt x 3

/-! ## librpbase/TextFuncs.cpp: audio time formatting -/

/-- `"%02u"`-style formatting: pad a decimal rendering to two digits. -/
def pad2 (n : Nat) : String := if n < 10 then "0" ++ toString n else toString n

/-- The centiseconds sub-expression of `formatSampleAsTime`:
`(unsigned)(((float)cs_frames / (float)rate) * 100)`.  The source computes it
with 32-bit floats; it is modelled here as exact truncating rational
arithmetic (the rounding rule the spec states in section 8).  No claim below
depends on the value of this branch. -/
def csFromFrames (frames rate : Nat) : Nat := frames * 100 / rate

/-- `formatSampleAsTime(sample, rate)` from TextFuncs.cpp: format a sample
count as `m:ss.cs`.  A zero rate is detected up front and yields the
`"#DIV/0!"` sentinel string. -/
def formatSampleAsTime (sample rate : Nat) : String :=
  if rate = 0 then
    "#DIV/0!"
  else
    let cs_frames := sample % rate
    let cs := if cs_frames ≠ 0 then csFromFrames cs_frames rate else 0
    let sec0 := sample / rate
    let mn := sec0 / 60
    let sec := sec0 % 60
    toString mn ++ ":" ++ pad2 sec ++ "." ++ pad2 cs

/-- The milliseconds sub-expression of `convSampleToMs`:
`(unsigned)(((float)ms_frames / (float)rate) * 1000)`, modelled as exact
truncating rational arithmetic as for `csFromFrames`. -/
def msFromFrames (frames rate : Nat) : Nat := frames * 1000 / rate

/-- `convSampleToMs(sample, rate)` from TextFuncs.cpp.  The source computes
`sample % rate` and `sample / rate` with **no** check that `rate` is nonzero;
unsigned division by zero is undefined behavior in C and is modelled as
`none`.  When `rate ≠ 0` the function totals `sec * 1000 + ms`. -/
def convSampleToMs (sample rate : Nat) : Option Nat :=
  if rate = 0 then
    none
  else
    let ms_frames := sample % rate
    let ms := if ms_frames ≠ 0 then msFromFrames ms_frames rate else 0
    let sec := sample / rate
    some (sec * 1000 + ms)

/-! ## libromdata/Console/N64.cpp: container byte-order variants

The N64 constructor's `switch` on the detected ROM type applies one of four
transforms to the just-read header to convert it to the canonical Z64 layout.
The transforms are modelled at the byte level (a list of bytes in file order),
which is host-endianness independent: `__byte_swap_16_array` swaps the two
bytes of each 16-bit element, `UNSWAP2` swaps the two 16-bit halves of each
32-bit word without byte-swapping within the halves, and
`__byte_swap_32_array` reverses the four bytes of each 32-bit element. -/

/-- The four supported N64 container variants, `N64Private::RomType`
(`ROM_TYPE_Z64` / `ROM_TYPE_V64` / `ROM_TYPE_SWAP2` / `ROM_TYPE_LE32`);
`ROM_TYPE_UNKNOWN` causes the constructor to bail out and is handled
separately. -/
inductive N64RomType where
  | z64 : N64RomType
  | v64 : N64RomType
  | swap2 : N64RomType
  | le32 : N64RomType

/-- `__byte_swap_16_array` at the byte level: swap the bytes of each 16-bit
element, in file order.  A trailing element smaller than 16 bits is left in
place. -/
def byteswap16Array : List Nat → List Nat
  | a :: b :: rest => b :: a :: byteswap16Array rest
  | l => l

/-- `__byte_swap_32_array` at the byte level: reverse the bytes of each
32-bit element.  A trailing group smaller than 32 bits is left in place. -/
def byteswap32Array : List Nat → List Nat
  | a :: b :: c :: d :: rest => d :: c :: b :: a :: byteswap32Array rest
  | l => l

/-- `UNSWAP2` (`(x >> 16) | (x << 16)` on each `uint32_t`) at the byte level:
swap the two 16-bit halves of each 32-bit word without byte-swapping within
the halves. -/
def wordswap32Array : List Nat → List Nat
  | a :: b :: c :: d :: rest => c :: d :: a :: b :: wordswap32Array rest
  | l => l

/-- The transform `N64::N64` applies to the raw header for each detected
variant in its `switch (d->romType)`, converting the header to Z64 layout:
none for Z64, 16-bit element-wise byteswap for V64, wordswap for swap2,
32-bit element-wise byteswap for LE32. -/
def n64CtorTransform (t : N64RomType) (header : List Nat) : List Nat :=
  match t with
  | .z64 => header
  | .v64 => byteswap16Array header
  | .swap2 => wordswap32Array header
  | .le32 => byteswap32Array header

/-- Modelled from the spec: the on-disk encoding of a canonical (Z64-layout)
header in each container variant — Z64 stores it unchanged, V64 stores the
16-bit byteswapped image, swap2 the wordswapped image, LE32 the 32-bit
byteswapped image.  This is the spec-side definition used to state the
round-trip property; `n64CtorTransform` is the source-side one. -/
def n64EncodeVariant (t : N64RomType) (header : List Nat) : List Nat :=
  match t with
  | .z64 => header
  | .v64 => byteswap16Array header
  | .swap2 => wordswap32Array header
  | .le32 => byteswap32Array header

/-! ## libromdata/Audio/BRSTM.cpp

`brstm_structs.h` is not under `src/`; the header record below models the
fields of `BRSTM_Header` the code reads, each holding the raw (as-stored)
integer value exactly as the C code obtains it from the file, and the
constants are modelled from the spec (magic `'RSTM'`, secondary chunk magic
`'HEAD'`, and the two permitted byte-order-mark values).  The host is
modelled as little-endian, so `cpu_to_be32`/`cpu_to_be16` are byte swaps.
The exact byte sizes of the structs only enter via comparisons against
file-supplied sizes and offsets; their concrete values are immaterial to the
claims. -/

def cpu_to_be32 (x : Nat) : Nat := swab32 x

def cpu_to_be16 (x : Nat) : Nat := swab16 x

/-- Modelled from the spec: `BRSTM_MAGIC` (`'RSTM'`) from brstm_structs.h. -/
def BRSTM_MAGIC : Nat := 0x5253544D

/-- Modelled from the spec: `BRSTM_HEAD_MAGIC` (`'HEAD'`). -/
def BRSTM_HEAD_MAGIC : Nat := 0x48454144

/-- Modelled from the spec: the byte-order mark value meaning host order. -/
def BRSTM_BOM_HOST : Nat := 0xFEFF

/-- Modelled from the spec: the byte-order mark value meaning swapped order. -/
def BRSTM_BOM_SWAP : Nat := 0xFFFE

/-- Modelled from the spec: `sizeof(BRSTM_Header)`. -/
def brstmHeaderSize : Nat := 64

/-- Modelled from the spec: `sizeof(BRSTM_HEAD_Header)`. -/
def brstmHeadHeaderSize : Nat := 20

/-- The fields of `BRSTM_Header` the code reads.  Every field holds the raw
stored value (endianness as in the file); the `brstm16_to_cpu` /
`brstm32_to_cpu` helpers apply `swab` when the byte-order mark requested
swapping. -/
structure BRSTM_Header where
  magic : Nat
  bom : Nat
  version_major : Nat
  version_minor : Nat
  chunk_count : Nat
  head_offset : Nat
  head_size : Nat
  data_offset : Nat
  data_size : Nat

/-- The all-zero header produced by the constructor's `memset`. -/
def BRSTM_Header.zero : BRSTM_Header := ⟨0, 0, 0, 0, 0, 0, 0, 0, 0⟩

/-- The fields of `BRSTM_HEAD_Header` the code reads (chunk magic and the
offset of HEAD chunk part 1), raw stored values. -/
structure BRSTM_HEAD_Header where
  magic : Nat
  head1_offset : Nat

/-- The fields of `BRSTM_HEAD_Chunk1` the code reads, raw stored values. -/
structure BRSTM_HEAD_Chunk1 where
  codec : Nat
  loop_flag : Nat
  channel_count : Nat
  sample_rate : Nat
  sample_count : Nat
  loop_start : Nat

/-- The all-zero chunk produced by the constructor's `memset`. -/
def BRSTM_HEAD_Chunk1.zero : BRSTM_HEAD_Chunk1 := ⟨0, 0, 0, 0, 0, 0⟩

/-- `BRSTMPrivate::brstm16_to_cpu`. -/
def brstm16_to_cpu (needsByteswap : Bool) (x : Nat) : Nat :=
  if needsByteswap then swab16 x else x

/-- `BRSTMPrivate::brstm32_to_cpu`. -/
def brstm32_to_cpu (needsByteswap : Bool) (x : Nat) : Nat :=
  if needsByteswap then swab32 x else x

/-- `DetectInfo` as passed to `BRSTM::isRomSupported_static`: header address,
header size, and the header buffer (`none` models a null `pData`); the
buffer itself is modelled as the parsed record view of the bytes. -/
structure DetectInfo where
  addr : Nat
  size : Nat
  pData : Option BRSTM_Header

/-- The chunk checks at the end of `BRSTM::isRomSupported_static`:
byte-order-normalized chunk count must be at least 2, and the HEAD and DATA
offset/size fields must all be non-zero (compared raw, no byteswap needed). -/
def brstmChunkChecks (needsByteswap : Bool) (h : BRSTM_Header) : Int :=
  if (if needsByteswap then swab16 h.chunk_count else h.chunk_count) < 2 then -1
  else if h.head_offset = 0 ∨ h.head_size = 0 ∨
      h.data_offset = 0 ∨ h.data_size = 0 then -1
  else 0

/-- `BRSTM::isRomSupported_static`: null info / null buffer / non-zero
header address / too-small header, then BRSTM magic, then the byte-order
mark (exactly two permitted values, selecting whether to byteswap), then the
chunk checks.  Modelled as a total function: the C function never throws. -/
def BRSTM_isRomSupported_static (info : Option DetectInfo) : Int :=
  match info with
  | none => -1
  | some i =>
    match i.pData with
    | none => -1
    | some h =>
      if i.addr ≠ 0 ∨ i.size < brstmHeaderSize then -1
      else if h.magic ≠ cpu_to_be32 BRSTM_MAGIC then -1
      else if h.bom = BRSTM_BOM_HOST then brstmChunkChecks false h
      else if h.bom = BRSTM_BOM_SWAP then brstmChunkChecks true h
      else -1

/-- The acceptance condition of claim C3, written from the spec's words: the
buffer is present, at least `sizeof(BRSTM_Header)` bytes at offset 0, the
magic matches, the byte-order mark is one of the two permitted values, the
BOM-normalized chunk count is at least 2, and the HEAD and DATA offset and
size fields are all non-zero. -/
def brstmDetectSpec (info : Option DetectInfo) : Bool :=
  match info with
  | none => false
  | some i =>
    match i.pData with
    | none => false
    | some h =>
      decide (i.addr = 0 ∧ brstmHeaderSize ≤ i.size ∧
        h.magic = cpu_to_be32 BRSTM_MAGIC ∧
        (h.bom = BRSTM_BOM_HOST ∨ h.bom = BRSTM_BOM_SWAP) ∧
        2 ≤ (if h.bom = BRSTM_BOM_SWAP then swab16 h.chunk_count
             else h.chunk_count) ∧
        h.head_offset ≠ 0 ∧ h.head_size ≠ 0 ∧
        h.data_offset ≠ 0 ∧ h.data_size ≠ 0)

/-- Abstract byte source for the BRSTM constructor, per the spec's byte
source collaborator contract: the primary-header read at offset 0 (`none`
models a short read), and the `seekAndRead` results for the HEAD chunk
header and HEAD chunk part 1 at a given offset (`none` models a seek or
read failure / short read). -/
structure BRSTMSource where
  header : Option BRSTM_Header
  readHeadHeader : Nat → Option BRSTM_HEAD_Header
  readHeadChunk1 : Nat → Option BRSTM_HEAD_Chunk1

/-- The per-file state of a `BRSTM` instance: the retained file reference
(`none` once released), the validity flag, the header structs, the cached
field list and metadata set (labels paired with display strings / numeric
values), and a count of byte-source reads issued so far (the spec's
"byte-read counter"). -/
structure BRSTMInstance where
  file : Option BRSTMSource
  isValid : Bool
  brstmHeader : BRSTM_Header
  headChunk1 : BRSTM_HEAD_Chunk1
  needsByteswap : Bool
  fields : List (String × String)
  metaData : Option (List (String × Option Nat))
  bytesRead : Nat

/-- An invalidated instance as left behind by the constructor's failure
paths: file reference released, `isValid` false, no fields, no metadata. -/
def brstmInvalid (h : BRSTM_Header) (nb : Bool) (reads : Nat) : BRSTMInstance :=
  ⟨none, false, h, BRSTM_HEAD_Chunk1.zero, nb, [], none, reads⟩

/-- `BRSTM::BRSTM(IRpFile *file)`: read the primary header (short read ⇒
release and bail), run detection, determine the byteswap policy from the
byte-order mark, bounds-check the HEAD chunk offset/size, seek-and-read and
verify the HEAD chunk header, bounds-check the chunk-1 offset against the
HEAD header size, and seek-and-read HEAD chunk part 1.  Every failure
invalidates the instance and releases the file reference. -/
def BRSTM_mk : Option BRSTMSource → BRSTMInstance
  | none => brstmInvalid BRSTM_Header.zero false 0
  | some src =>
    match src.header with
    | none => brstmInvalid BRSTM_Header.zero false 1
    | some h =>
      if BRSTM_isRomSupported_static (some ⟨0, brstmHeaderSize, some h⟩) < 0 then
        brstmInvalid h false 1
      else
        let nb := h.bom == BRSTM_BOM_SWAP
        let head_offset := brstm32_to_cpu nb h.head_offset
        let head_size := brstm32_to_cpu nb h.head_size
        if head_offset = 0 ∨ head_size < brstmHeadHeaderSize then
          brstmInvalid h nb 1
        else
          match src.readHeadHeader head_offset with
          | none => brstmInvalid h nb 2
          | some hh =>
            if hh.magic ≠ cpu_to_be32 BRSTM_HEAD_MAGIC then brstmInvalid h nb 2
            else
              let head1_offset := brstm32_to_cpu nb hh.head1_offset
              if head1_offset < brstmHeadHeaderSize - 8 then brstmInvalid h nb 2
              else
                match src.readHeadChunk1 (head_offset + 8 + head1_offset) with
                | none => brstmInvalid h nb 3
                | some c1 => ⟨some src, true, h, c1, nb, [], none, 3⟩

/-- POSIX `EBADF`, as an `Int` for negative return codes. -/
def EBADF : Int := 9

/-- The POSIX I/O-error errno value 5, as an `Int` for negative return
codes. -/
def EIOErr : Int := 5

/-- The codec display string of `BRSTM::loadFieldData` (table lookup with an
`"Unknown (N)"` fallback for unrecognized codec ids). -/
def brstmCodecString (codec : Nat) : String :=
  if codec = 0 then "Signed 8-bit PCM"
  else if codec = 1 then "Signed 16-bit PCM"
  else if codec = 2 then "4-bit THP ADPCM"
  else "Unknown (" ++ toString codec ++ ")"

/-- `BRSTM::loadFieldData`: returns `(result, updated instance)`.  If fields
were already computed, return 0 immediately; otherwise `-EBADF` without an
open file, `-EIOErr` when invalid, and on success the ordered field list
(Version, Endianness, Codec, Channels, Sample Rate, Length, Looping, and
Loop Start when the loop flag is set) with its count. -/
def BRSTM_loadFieldData (inst : BRSTMInstance) : Int × BRSTMInstance :=
  if inst.fields ≠ [] then (0, inst)
  else
    match inst.file with
    | none => (-EBADF, inst)
    | some _ =>
      if inst.isValid = false then (-EIOErr, inst)
      else
        let h := inst.brstmHeader
        let c1 := inst.headChunk1
        let nb := inst.needsByteswap
        let sample_rate := brstm16_to_cpu nb c1.sample_rate
        let sample_count := brstm32_to_cpu nb c1.sample_count
        let base := [
          ("Version", toString h.version_major ++ "." ++ toString h.version_minor),
          ("Endianness",
            if h.bom = cpu_to_be16 BRSTM_BOM_HOST then "Big-Endian"
            else "Little-Endian"),
          ("Codec", brstmCodecString c1.codec),
          ("Channels", toString c1.channel_count),
          ("Sample Rate", toString sample_rate ++ " Hz"),
          ("Length", formatSampleAsTime sample_count sample_rate),
          ("Looping", if c1.loop_flag ≠ 0 then "Yes" else "No")]
        let fs :=
          if c1.loop_flag ≠ 0 then
            base ++ [("Loop Start",
              formatSampleAsTime (brstm32_to_cpu nb c1.loop_start) sample_rate)]
          else base
        ((fs.length : Int), { inst with fields := fs })

/-- `BRSTM::loadMetaData`: returns `(result, updated instance)`.  If the
metadata object already exists, return 0 immediately; otherwise `-EBADF` /
`-EIOErr` as for fields, and on success the three properties Channels,
SampleRate and Duration (the latter through `convSampleToMs` with the
file-supplied rate) with their count. -/
def BRSTM_loadMetaData (inst : BRSTMInstance) : Int × BRSTMInstance :=
  match inst.metaData with
  | some _ => (0, inst)
  | none =>
    match inst.file with
    | none => (-EBADF, inst)
    | some _ =>
      if inst.isValid = false then (-EIOErr, inst)
      else
        let c1 := inst.headChunk1
        let nb := inst.needsByteswap
        let sample_rate := brstm16_to_cpu nb c1.sample_rate
        let sample_count := brstm32_to_cpu nb c1.sample_count
        let md := [
          ("Channels", some c1.channel_count),
          ("SampleRate", some sample_rate),
          ("Duration", convSampleToMs sample_count sample_rate)]
        ((md.length : Int), { inst with metaData := some md })

/-- The failure events named by claim C2, each as an observable predicate on
the byte source, in the constructor's order: short primary-header read,
detection failure, HEAD chunk offset/size bounds-check failure, HEAD chunk
header seek/read failure, HEAD chunk magic mismatch, chunk-1 offset
bounds-check failure, chunk-1 seek/read failure. -/
def brstmCtorFailureEvent (src : BRSTMSource) : Bool :=
  match src.header with
  | none => true
  | some h =>
    decide (BRSTM_isRomSupported_static (some ⟨0, brstmHeaderSize, some h⟩) < 0) ||
    (let nb := h.bom == BRSTM_BOM_SWAP
     let head_offset := brstm32_to_cpu nb h.head_offset
     let head_size := brstm32_to_cpu nb h.head_size
     decide (head_offset = 0 ∨ head_size < brstmHeadHeaderSize) ||
     (src.readHeadHeader head_offset).isNone ||
     (match src.readHeadHeader head_offset with
      | none => false
      | some hh =>
        decide (hh.magic ≠ cpu_to_be32 BRSTM_HEAD_MAGIC) ||
        decide (brstm32_to_cpu nb hh.head1_offset < brstmHeadHeaderSize - 8) ||
        (src.readHeadChunk1
          (head_offset + 8 + brstm32_to_cpu nb hh.head1_offset)).isNone))

/-! ## libromdata/Audio/PSF.cpp

The PSF file is modelled as its byte list.  `psf_structs.h` is not under
`src/`; the 16-byte header layout (3-byte magic `"PSF"`, version byte, and
three little-endian 32-bit fields `reserved_size`,
`compressed_prg_length`, `compressed_prg_crc32`) is modelled from the spec
and the source's accesses (`le32_to_cpu(psfHeader->reserved_size)`,
`le32_to_cpu(psfHeader->compressed_prg_length)`). -/

/-- Little-endian decoding of a byte list. -/
def leNat (bs : List Nat) : Nat := bs.foldr (fun b acc => b + 256 * acc) 0

/-- Modelled from the spec: `sizeof(PSF_Header)` (16 bytes). -/
def psfHeaderSize : Nat := 16

/-- Modelled from the spec: `PSF_MAGIC`, the bytes `"PSF"`. -/
def PSF_MAGIC : List Nat := [0x50, 0x53, 0x46]

/-- The fields of `PSF_Header` the code reads. -/
structure PSF_Header where
  magic : List Nat
  version : Nat
  reserved_size : Nat
  compressed_prg_length : Nat

/-- The all-zero header produced by the constructor's `memset`. -/
def PSF_Header.zero : PSF_Header := ⟨[0, 0, 0], 0, 0, 0⟩

/-- The primary-header read of `PSF::PSF`: `none` models a short read (file
smaller than `sizeof(PSF_Header)`), otherwise the decoded header record with
the two little-endian length fields already in host order
(`le32_to_cpu` is the identity on the little-endian host). -/
def readPSFHeader (file : List Nat) : Option PSF_Header :=
  if file.length < psfHeaderSize then none
  else some ⟨file.take 3, file.getD 3 0,
    leNat ((file.drop 4).take 4), leNat ((file.drop 8).take 4)⟩

/-- The tag-section start address computed by `PSF::loadFieldData` and
`PSF::loadMetaData`: `sizeof(*psfHeader) + reserved_size +
compressed_prg_length`. -/
def PSF_tagAddr (h : PSF_Header) : Nat :=
  psfHeaderSize + h.reserved_size + h.compressed_prg_length

/-- `std::tolower` on the ASCII bytes of a tag key (the source notes the key
must be ASCII). -/
def asciiToLower (c : Nat) : Nat := if 65 ≤ c ∧ c ≤ 90 then c + 32 else c

/-- Split a byte list at newline bytes, keeping every (possibly empty)
segment: this is the `memchr(p, '\n', ...)` walk of `parseTags`. -/
def splitOnNL : List Nat → List (List Nat)
  | [] => [[]]
  | c :: rest =>
    match splitOnNL rest with
    | [] => [[]]
    | line :: lines =>
      if c = 10 then [] :: line :: lines
      else (c :: line) :: lines

/-- Parse one non-empty tag line: find the `'='`, require a non-empty key
and a non-empty value, lowercase the key. -/
def psfLineKV (line : List Nat) : Option (List Nat × List Nat) :=
  match line.findIdx? (fun c => c == 61) with
  | none => none
  | some i =>
    if 0 < i ∧ 0 < line.length - i - 1 then
      some ((line.take i).map asciiToLower, line.drop (i + 1))
    else none

/-- The key/value pairs of the tag block, in line order, duplicates kept:
the lines of the tag data (empty lines skipped, as `parseTags` skips
`p == nl`), each parsed by `psfLineKV`. -/
def psfLinePairs (data : List Nat) : List (List Nat × List Nat) :=
  ((splitOnNL data).filter (fun l => l ≠ [])).filterMap psfLineKV

/-- `std::unordered_map::emplace` on an association list: insert only when
the key is not already present. -/
def emplace (kv : List (List Nat × List Nat)) (k v : List Nat) :
    List (List Nat × List Nat) :=
  if kv.any (fun p => p.1 == k) then kv else kv ++ [(k, v)]

/-- The `kv` map built by the `parseTags` loop: `emplace` of each parsed
line's pair, in order. -/
def psfTagMap (data : List Nat) : List (List Nat × List Nat) :=
  (psfLinePairs data).foldl (fun kv p => emplace kv p.1 p.2) []

/-- The bytes of the `"utf8"` tag key. -/
def utf8Key : List Nat := [117, 116, 102, 56]

/-- The `isUtf8` flag computed by the `parseTags` loop: set when some parsed
line has key `"utf8"` (with a non-empty value — implied by `psfLineKV`). -/
def psfIsUtf8 (data : List Nat) : Bool :=
  (psfLinePairs data).any (fun p => p.1 == utf8Key)

/-- Modelled from the spec: `cp1252_sjis_to_utf8` lives in code not under
`src/` (the supplied TextFuncs.cpp excerpt does not contain it).  The spec
says values are batch-converted from the legacy 8-bit encoding to UTF-8; on
ASCII bytes — the only values the claims evaluate — that conversion is the
identity, which is how it is modelled. -/
def cp1252_sjis_to_utf8 (bs : List Nat) : List Nat := bs

/-- The size of the `new char8_t[data_len]` allocation `PSFPrivate::parseTags`
performs for the trailing tag region, given the file length and the tag
section start address: the tag-magic read must succeed
(`tag_addr + 5 ≤ fileLen`) and `data_len = fileLen - tag_addr - 5` must be
positive; `none` when no allocation happens.  The source imposes no other
bound on `data_len`. -/
def PSF_parseTags_allocSize (fileLen tag_addr : Nat) : Option Nat :=
  if fileLen < tag_addr + 5 then none
  else
    let data_len : Int := (fileLen : Int) - (tag_addr : Int) - 5
    if data_len ≤ 0 then none else some data_len.toNat

/-- The bytes `parseTags` reads into its allocation: the rest of the file
after the tag magic (empty when no allocation happens). -/
def psfTagData (file : List Nat) (tag_addr : Nat) : List Nat :=
  match PSF_parseTags_allocSize file.length tag_addr with
  | none => []
  | some n => (file.drop (tag_addr + 5)).take n

/-- `PSFPrivate::parseTags(tag_addr)`: read the 5-byte tag magic at
`tag_addr` (its value is not verified), allocate and read the rest of the
file, split it into newline-delimited lines, `emplace` each valid
`key=value` pair (lowercased ASCII key), and, unless a `"utf8"` tag was
seen, batch-convert the values from the legacy encoding. -/
def PSF_parseTags (file : List Nat) (tag_addr : Nat) :
    List (List Nat × List Nat) :=
  match PSF_parseTags_allocSize file.length tag_addr with
  | none => []
  | some _ =>
    let tag_data := psfTagData file tag_addr
    let kv := psfTagMap tag_data
    if psfIsUtf8 tag_data then kv
    else kv.map (fun p => (p.1, cp1252_sjis_to_utf8 p.2))

/-! ### `PSFPrivate::lengthToMs` -/

/-- Decimal digits to a natural number. -/
def natOfDigits (ds : List Char) : Nat :=
  ds.foldl (fun a c => a * 10 + (c.toNat - 48)) 0

/-- `sscanf`'s `%u` conversion: skip spaces, read at least one decimal
digit, value stored into an `unsigned int`. -/
def scanU (cs : List Char) : Option (Nat × List Char) :=
  let cs1 := cs.dropWhile (fun c => c == ' ')
  let ds := cs1.takeWhile Char.isDigit
  if ds.length = 0 then none
  else some (natOfDigits ds % 4294967296, cs1.drop ds.length)

/-- One item of an `sscanf` format: a `%u` conversion or a literal
character. -/
inductive ScanItem where
  | num : ScanItem
  | lit : Char → ScanItem

/-- Run an `sscanf` format against the input, returning the values assigned
in order; a literal mismatch or failed conversion stops the scan, keeping
the assignments already made (as `sscanf` does). -/
def runScan : List ScanItem → List Char → List Nat
  | [], _ => []
  | .num :: items, cs =>
    match scanU cs with
    | none => []
    | some (v, rest) => v :: runScan items rest
  | .lit c :: items, cs =>
    match cs with
    | [] => []
    | x :: rest => if x == c then runScan items rest else []

/-- The four `unsigned int` locals of `lengthToMs`.  The C code leaves them
uninitialized; they are modelled with initial value 0, and every flow below
that reads one of them has already assigned it through a previous
partially-matched `sscanf` pattern (each pattern's first `%u` assigns its
first variable from the same leading digits). -/
structure LenState where
  hour : Nat
  min : Nat
  sec : Nat
  frac : Nat

/-- Assign (hour, min, sec, frac) from a scan's value list, keeping the old
value where the scan assigned nothing. -/
def updHMSF (st : LenState) (vs : List Nat) : LenState :=
  ⟨vs.getD 0 st.hour, vs.getD 1 st.min, vs.getD 2 st.sec, vs.getD 3 st.frac⟩

/-- Assign (min, sec, frac). -/
def updMSF (st : LenState) (vs : List Nat) : LenState :=
  ⟨st.hour, vs.getD 0 st.min, vs.getD 1 st.sec, vs.getD 2 st.frac⟩

/-- Assign (min, sec). -/
def updMS (st : LenState) (vs : List Nat) : LenState :=
  ⟨st.hour, vs.getD 0 st.min, vs.getD 1 st.sec, st.frac⟩

/-- Assign (sec, frac). -/
def updSF (st : LenState) (vs : List Nat) : LenState :=
  ⟨st.hour, st.min, vs.getD 0 st.sec, vs.getD 1 st.frac⟩

/-- Assign (sec). -/
def updS (st : LenState) (vs : List Nat) : LenState :=
  ⟨st.hour, st.min, vs.getD 0 st.sec, st.frac⟩

/-- The `frac_adj` computation of `lengthToMs`: find the first `'.'` (else
the first `','`), count the digits after it, and map the count to a scale
(0 digits ⇒ 0, 1 ⇒ 100, 2 ⇒ 10, 3 or more ⇒ 1); 0 when no separator. -/
def lengthFracAdj (cs : List Char) : Nat :=
  let dp :=
    match cs.findIdx? (fun c => c == '.') with
    | some i => some i
    | none => cs.findIdx? (fun c => c == ',')
  match dp with
  | none => 0
  | some i =>
    let digit_count := ((cs.drop (i + 1)).takeWhile Char.isDigit).length
    if digit_count = 0 then 0
    else if digit_count = 1 then 100
    else if digit_count = 2 then 10
    else 1

/-- `PSFPrivate::lengthToMs`: try `h:m:s.f` (then with `','`), `h:m:s`,
`m:s.f` (then `','`), `m:s`, `s.f` (then `','`), `s`, in that order,
accumulating partial `sscanf` assignments into the shared locals, and
return 0 when nothing matches.  Arithmetic is `unsigned int`
(modulo 2^32).  Note two faithful oddities of the source: the `s.f` branch
adds `min * 60 * 1000` (with `min` left over from earlier patterns) and the
bare-seconds branch returns `sec` without scaling. -/
def lengthToMs (str : String) : Nat :=
  let cs := str.data
  let frac_adj := lengthFracAdj cs
  let st0 : LenState := ⟨0, 0, 0, 0⟩
  let vs1 := runScan [.num, .lit ':', .num, .lit ':', .num, .lit '.', .num] cs
  let st1 := updHMSF st0 vs1
  let vs1b :=
    if vs1.length ≠ 4 then
      runScan [.num, .lit ':', .num, .lit ':', .num, .lit ',', .num] cs
    else vs1
  let st1b := if vs1.length ≠ 4 then updHMSF st1 vs1b else st1
  if vs1b.length = 4 then
    (st1b.hour * 3600000 + st1b.min * 60000 + st1b.sec * 1000 +
      st1b.frac * frac_adj) % 4294967296
  else
    let vs2 := runScan [.num, .lit ':', .num, .lit ':', .num] cs
    let st2 := updHMSF st1b vs2
    if vs2.length = 3 then
      (st2.hour * 3600000 + st2.min * 60000 + st2.sec * 1000) % 4294967296
    else
      let vs3 := runScan [.num, .lit ':', .num, .lit '.', .num] cs
      let st3 := updMSF st2 vs3
      let vs3b :=
        if vs3.length ≠ 3 then runScan [.num, .lit ':', .num, .lit ',', .num] cs
        else vs3
      let st3b := if vs3.length ≠ 3 then updMSF st3 vs3b else st3
      if vs3b.length = 3 then
        (st3b.min * 60000 + st3b.sec * 1000 + st3b.frac * frac_adj) % 4294967296
      else
        let vs4 := runScan [.num, .lit ':', .num] cs
        let st4 := updMS st3b vs4
        if vs4.length = 2 then
          (st4.min * 60000 + st4.sec * 1000) % 4294967296
        else
          let vs5 := runScan [.num, .lit '.', .num] cs
          let st5 := updSF st4 vs5
          let vs5b :=
            if vs5.length ≠ 2 then runScan [.num, .lit ',', .num] cs else vs5
          let st5b := if vs5.length ≠ 2 then updSF st5 vs5b else st5
          if vs5b.length = 2 then
            (st5b.min * 60000 + st5b.sec * 1000 + st5b.frac * frac_adj) %
              4294967296
          else
            let vs6 := runScan [.num] cs
            let st6 := updS st5b vs6
            if vs6.length = 1 then st6.sec % 4294967296
            else 0

/-! ### PSF instance state, field and metadata extraction -/

/-- Render tag-value bytes as a display string (tag values in the claims are
ASCII). -/
def strOfBytes (bs : List Nat) : String := String.mk (bs.map Char.ofNat)

/-- Digit bytes to a natural number. -/
def natOfDigitBytes (ds : List Nat) : Nat :=
  ds.foldl (fun a c => a * 10 + (c - 48)) 0

/-- Uppercase hex digit. -/
def hexDigit (n : Nat) : String :=
  if n < 10 then toString n
  else if n = 10 then "A" else if n = 11 then "B" else if n = 12 then "C"
  else if n = 13 then "D" else if n = 14 then "E" else "F"

/-- `"%02X"` of a byte. -/
def hexByte (n : Nat) : String := hexDigit (n / 16 % 16) ++ hexDigit (n % 16)

/-- A typed metadata value: free text (tag-value bytes) or a number. -/
inductive MetaVal where
  | txt : List Nat → MetaVal
  | num : Nat → MetaVal

/-- Modelled from the spec: the PSF version constants from psf_structs.h
(not under `src/`), mapped to system display names, as in the
`sysname_lkup_tbl` of `PSF::loadFieldData`. -/
def psfSystemLookup (version : Nat) : Option String :=
  if version = 0x01 then some "Sony PlayStation"
  else if version = 0x02 then some "Sony PlayStation 2"
  else if version = 0x11 then some "Sega Saturn"
  else if version = 0x12 then some "Sega Dreamcast"
  else if version = 0x13 then some "Sega Mega Drive"
  else if version = 0x21 then some "Nintendo 64"
  else if version = 0x22 then some "Game Boy Advance"
  else if version = 0x23 then some "Super NES"
  else if version = 0x41 then some "Capcom QSound"
  else none

/-- The bytes of the `"psfby"` tag key. -/
def psfbyKey : List Nat := [112, 115, 102, 98, 121]

/-- `PSFPrivate::getRippedByTagName`: the per-version "ripped by" tag key,
defaulting to `"psfby"` when the version is unknown. -/
def psfRippedByTag (version : Nat) : List Nat :=
  if version = 0x01 ∨ version = 0x02 then psfbyKey
  else if version = 0x11 then [115, 115, 102, 98, 121]
  else if version = 0x12 then [100, 115, 102, 98, 121]
  else if version = 0x13 then [109, 115, 102, 98, 121]
  else if version = 0x21 then [117, 115, 102, 98, 121]
  else if version = 0x22 then [103, 115, 102, 98, 121]
  else if version = 0x23 then [115, 110, 115, 102, 98, 121]
  else if version = 0x41 then [113, 115, 102, 98, 121]
  else psfbyKey

/-- Model of `sscanf(value, "%04d%c", &year, &chr)` followed by the
acceptance test of `PSF::loadMetaData`: parse an optionally signed integer
from at most four characters; accept when either the string ends there
(`s == 1`) or the next character is `'-'` or `'/'` (`s == 2`), and the year
is in `[0, 10000)`.  Returns the accepted year. -/
def psfParseYear (bs : List Nat) : Option Nat :=
  let sgnrest :=
    match bs with
    | 45 :: r => ((-1 : Int), r, 3)
    | 43 :: r => ((1 : Int), r, 3)
    | _ => ((1 : Int), bs, 4)
  let ds := (sgnrest.2.1.take sgnrest.2.2).takeWhile (fun c => 48 ≤ c && c ≤ 57)
  if ds.length = 0 then none
  else
    let year : Int := sgnrest.1 * (natOfDigitBytes ds : Int)
    let ok : Bool :=
      match sgnrest.2.1.drop ds.length with
      | [] => true
      | c :: _ => decide (c = 45 ∨ c = 47)
    if ok ∧ 0 ≤ year ∧ year < 10000 then some year.toNat else none

/-- One optional display field from a tag lookup. -/
def optField (label : String) (v : Option (List Nat)) : List (String × String) :=
  match v with
  | some bs => [(label, strOfBytes bs)]
  | none => []

/-- One optional text metadata property from a tag lookup. -/
def optMeta (label : String) (v : Option (List Nat)) : List (String × MetaVal) :=
  match v with
  | some bs => [(label, MetaVal.txt bs)]
  | none => []

/-- The tag-derived display fields of `PSF::loadFieldData`, in source
order: Title, Artist, Game, Release Date, Genre, Copyright, Ripped By (per
version, with a `"psfby"` fallback), Volume, Duration, Fadeout Duration,
Comment. -/
def psfTagFields (version : Nat) (tags : List (List Nat × List Nat)) :
    List (String × String) :=
  optField "Title" (List.lookup [116, 105, 116, 108, 101] tags) ++
  optField "Artist" (List.lookup [97, 114, 116, 105, 115, 116] tags) ++
  optField "Game" (List.lookup [103, 97, 109, 101] tags) ++
  optField "Release Date" (List.lookup [121, 101, 97, 114] tags) ++
  optField "Genre" (List.lookup [103, 101, 110, 114, 101] tags) ++
  optField "Copyright" (List.lookup [99, 111, 112, 121, 114, 105, 103, 104, 116] tags) ++
  (match List.lookup (psfRippedByTag version) tags with
   | some v => [("Ripped By", strOfBytes v)]
   | none => optField "Ripped By" (List.lookup psfbyKey tags)) ++
  optField "Volume" (List.lookup [118, 111, 108, 117, 109, 101] tags) ++
  optField "Duration" (List.lookup [108, 101, 110, 103, 116, 104] tags) ++
  optField "Fadeout Duration" (List.lookup [102, 97, 100, 101] tags) ++
  optField "Comment" (List.lookup [99, 111, 109, 109, 101, 110, 116] tags)

/-- The metadata properties of `PSF::loadMetaData`, in source order: Title,
Artist, Album (from `game`), ReleaseYear (parsed from `year`), Genre,
Copyright, Duration (via `lengthToMs` on `length`), Subject (from
`comment`). -/
def psfMetaFromTags (tags : List (List Nat × List Nat)) :
    List (String × MetaVal) :=
  optMeta "Title" (List.lookup [116, 105, 116, 108, 101] tags) ++
  optMeta "Artist" (List.lookup [97, 114, 116, 105, 115, 116] tags) ++
  optMeta "Album" (List.lookup [103, 97, 109, 101] tags) ++
  (match List.lookup [121, 101, 97, 114] tags with
   | some v =>
     match psfParseYear v with
     | some y => [("ReleaseYear", MetaVal.num y)]
     | none => []
   | none => []) ++
  optMeta "Genre" (List.lookup [103, 101, 110, 114, 101] tags) ++
  optMeta "Copyright" (List.lookup [99, 111, 112, 121, 114, 105, 103, 104, 116] tags) ++
  (match List.lookup [108, 101, 110, 103, 116, 104] tags with
   | some v => [("Duration", MetaVal.num (lengthToMs (strOfBytes v)))]
   | none => []) ++
  optMeta "Subject" (List.lookup [99, 111, 109, 109, 101, 110, 116] tags)

/-- The per-file state of a `PSF` instance: retained file (`none` once
released), validity flag, header, cached field list, cached metadata set
(`none` until created), and a count of tag-region parse attempts (the
spec's "parse counter"). -/
structure PSFInstance where
  file : Option (List Nat)
  isValid : Bool
  psfHeader : PSF_Header
  fields : List (String × String)
  metaData : Option (List (String × MetaVal))
  tagParseCount : Nat

/-- `PSF::PSF(IRpFile *file)`: read the 16-byte header (short read ⇒
release and bail), then `isRomSupported_static`, which for the exact-size
buffer the constructor passes reduces to the 3-byte magic `memcmp`; a
mismatch invalidates the instance and releases the file. -/
def PSF_mk (file : Option (List Nat)) : PSFInstance :=
  match file with
  | none => ⟨none, false, PSF_Header.zero, [], none, 0⟩
  | some f =>
    match readPSFHeader f with
    | none => ⟨none, false, PSF_Header.zero, [], none, 0⟩
    | some h =>
      if h.magic == PSF_MAGIC then ⟨some f, true, h, [], none, 0⟩
      else ⟨none, false, h, [], none, 0⟩

/-- `PSF::loadFieldData`: cached-fields early return, `-EBADF` / `-EIOErr`
checks, then the System field (lookup table with an `"Unknown (0xNN)"`
fallback), then the tag-derived fields when the tag map is non-empty;
returns the field count. -/
def PSF_loadFieldData (inst : PSFInstance) : Int × PSFInstance :=
  if inst.fields ≠ [] then (0, inst)
  else
    match inst.file with
    | none => (-EBADF, inst)
    | some f =>
      if inst.isValid = false then (-EIOErr, inst)
      else
        let h := inst.psfHeader
        let sysField :=
          ("System",
            match psfSystemLookup h.version with
            | some s => s
            | none => "Unknown (0x" ++ hexByte h.version ++ ")")
        let tags := PSF_parseTags f (PSF_tagAddr h)
        let fs := sysField ::
          (if tags = [] then [] else psfTagFields h.version tags)
        ((fs.length : Int),
          { inst with fields := fs, tagParseCount := inst.tagParseCount + 1 })

/-- `PSF::loadMetaData`: cached-metadata early return, `-EBADF` / `-EIOErr`
checks, then the tag parse; an empty tag map returns `-EIOErr` **before** the
metadata object is created, so nothing is cached; otherwise the metadata
set is built and its count returned. -/
def PSF_loadMetaData (inst : PSFInstance) : Int × PSFInstance :=
  match inst.metaData with
  | some _ => (0, inst)
  | none =>
    match inst.file with
    | none => (-EBADF, inst)
    | some f =>
      if inst.isValid = false then (-EIOErr, inst)
      else
        let tags := PSF_parseTags f (PSF_tagAddr inst.psfHeader)
        let inst2 := { inst with tagParseCount := inst.tagParseCount + 1 }
        if tags = [] then (-EIOErr, inst2)
        else
          let md := psfMetaFromTags tags
          ((md.length : Int), { inst2 with metaData := some md })

/-! ## Concrete inputs used by witnesses and counterexamples -/

/-- A byte source whose primary-header read is short. -/
def brstmShortSource : BRSTMSource := ⟨none, fun _ => none, fun _ => none⟩

/-- A well-formed big-endian BRSTM byte source (host is little-endian, so
the raw stored values are the byteswapped images of the logical constants):
magic `'RSTM'`, byte-order mark `0xFEFF` (host order as stored), 2 chunks,
HEAD at `0x40` size `0x100`, DATA present, a valid HEAD chunk header with
`head1_offset = 0x18`, and a chunk 1 with 2 channels at 44100 Hz, 44100
samples, not looping. -/
def brstmSampleSource : BRSTMSource :=
  ⟨some ⟨0x4D545352, 0xFEFF, 1, 0, 2, 0x40, 0x100, 1, 1⟩,
   fun _ => some ⟨0x44414548, 0x18⟩,
   fun _ => some ⟨2, 0, 2, 44100, 44100, 0⟩⟩

/-- A 16-byte PSF file: valid magic `"PSF"` and version 1, with
`reserved_size = 0` and `compressed_prg_length = 0`, so the tag section
would start at end-of-file — there are no tag bytes at all. -/
def psfNoTagFile : List Nat :=
  [80, 83, 70, 1, 0, 0, 0, 0, 0, 0, 0, 0, 0, 0, 0, 0]

/-- A tag block at offset 0 whose key `"a"` occurs twice:
five placeholder tag-magic bytes (which `parseTags` reads but never
verifies) followed by the lines `a=1` and `a=2`. -/
def psfDupTagFile : List Nat :=
  [91, 84, 65, 71, 93] ++ [97, 61, 49, 10, 97, 61, 50, 10]

theorem byteswap16Array_byteswap16Array :
    ∀ l : List Nat, byteswap16Array (byteswap16Array l) = l
  | [] => rfl
  | [_] => rfl
  | _ :: _ :: rest => by
    simp [byteswap16Array, byteswap16Array_byteswap16Array rest]

theorem byteswap32Array_byteswap32Array :
    ∀ l : List Nat, byteswap32Array (byteswap32Array l) = l
  | [] => rfl
  | [_] => rfl
  | [_, _] => rfl
  | [_, _, _] => rfl
  | _ :: _ :: _ :: _ :: rest => by
    simp [byteswap32Array, byteswap32Array_byteswap32Array rest]

theorem wordswap32Array_wordswap32Array :
    ∀ l : List Nat, wordswap32Array (wordswap32Array l) = l
  | [] => rfl
  | [_] => rfl
  | [_, _] => rfl
  | [_, _, _] => rfl
  | _ :: _ :: _ :: _ :: rest => by
    simp [wordswap32Array, wordswap32Array_wordswap32Array rest]

/-- C4: for each of the four N64 container variants, the constructor applies
that variant's transform (none / 16-bit byteswap / wordswap / 32-bit
byteswap), so parsing a synthetic header produced by encoding a canonical
header in that variant reproduces the canonical header bit-for-bit. -/
theorem claim_C4_n64_variant_roundtrip (t : N64RomType) (header : List Nat) :
    n64CtorTransform t (n64EncodeVariant t header) = header := by
  cases t <;>
    simp [n64CtorTransform, n64EncodeVariant,
      byteswap16Array_byteswap16Array, byteswap32Array_byteswap32Array,
      wordswap32Array_wordswap32Array]

/-! ## Claims C5, C6, C7, C8: time formatting, duration parsing, tag-region
allocation -/

/-- Claim C5 (code bug evidence): `formatSampleAsTime` detects a zero sample
rate and returns the `"#DIV/0!"` sentinel, but `convSampleToMs` — called by
`BRSTM::loadMetaData` with the file-supplied rate — performs `sample % rate`
with no zero check, so a zero rate reaches a division by zero (undefined
behavior, modelled as `none`) instead of a detected error case. -/
theorem claim_C5_convSampleToMs_division_by_zero :
    convSampleToMs 44100 0 = none ∧ formatSampleAsTime 44100 0 = "#DIV/0!" :=
  ⟨rfl, rfl⟩

/-- Claim C6 counterexample: the spec's second vector fails — 44100 samples
at 44100 Hz is one second, which `formatSampleAsTime` renders as
`"0:01.00"`, not `"1:00.00"` (which would be one minute). -/
theorem claim_C6_counterexample :
    formatSampleAsTime 44100 44100 ≠ "1:00.00" := by
  decide

/-- Claim C6 as amended: `formatSampleAsTime(0, 44100) = "0:00.00"` and
`formatSampleAsTime(44100, 44100) = "0:01.00"`. -/
theorem claim_C6_time_format_vectors :
    formatSampleAsTime 0 44100 = "0:00.00" ∧
    formatSampleAsTime 44100 44100 = "0:01.00" :=
  ⟨rfl, rfl⟩

/-- Claim C7 (code bug evidence): three of the spec's vectors hold
(`"1:23.456"` → 83456 ms, `"1:02:03"` → 3723000 ms, `"abc"` → 0 ms), but
`"83.5"` yields 5063500 ms instead of 83500 ms: the `seconds.decimal`
branch of `lengthToMs` adds `min * 60 * 1000`, where `min` holds 83 left
over from the earlier partially-matched `m:s` patterns
(83·60000 + 83·1000 + 5·100 = 5063500). -/
theorem claim_C7_lengthToMs_vectors :
    lengthToMs "1:23.456" = 83456 ∧ lengthToMs "1:02:03" = 3723000 ∧
    lengthToMs "abc" = 0 ∧ lengthToMs "83.5" = 5063500 :=
  ⟨rfl, rfl, rfl, rfl⟩

/-- Claim C8 (code bug evidence): despite the source's own
`// NOTE: Maximum of 16 KB.` comment, `parseTags` allocates
`file->size() - tag_addr - 5` bytes with no clamp: for a 1,000,000-byte
file with the tag section at offset 0 it allocates 999,995 bytes, far over
16 KB. -/
theorem claim_C8_parseTags_unbounded_alloc :
    PSF_parseTags_allocSize 1000000 0 = some 999995 ∧ 16384 < 999995 :=
  ⟨rfl, by norm_num⟩

/-! ## Claim C9: duplicate tag keys -/

/-- Claim C9 counterexample: with `a=1` and `a=2` in the tag block, the
retained value is `"1"` — the **first** occurrence, because
`std::unordered_map::emplace` does not overwrite an existing key — not the
last occurrence `"2"` the claim states. -/
theorem claim_C9_counterexample :
    List.lookup [97] (PSF_parseTags psfDupTagFile 0) ≠ some [50] ∧
    List.lookup [97] (PSF_parseTags psfDupTagFile 0) = some [49] := by
  constructor <;> decide

theorem lookup_isSome_of_any (kv : List (List Nat × List Nat)) (k : List Nat)
    (h : kv.any (fun p => p.1 == k) = true) :
    (List.lookup k kv).isSome = true := by
  induction kv with
  | nil => simp at h
  | cons p ps ih =>
    obtain ⟨k1, v1⟩ := p
    cases hk : k == k1 with
    | true => simp [List.lookup, hk]
    | false =>
      have hne : k ≠ k1 := by
        intro he
        rw [he] at hk
        simp at hk
      have hk1 : (k1 == k) = false := by
        simp only [beq_eq_false_iff_ne, ne_eq]
        exact fun he => hne he.symm
      rw [List.any_cons] at h
      simp only [hk1, Bool.false_or] at h
      simp only [List.lookup, hk]
      exact ih h

theorem lookup_append (q : List Nat) (l1 l2 : List (List Nat × List Nat)) :
    List.lookup q (l1 ++ l2) =
      (List.lookup q l1).orElse (fun _ => List.lookup q l2) := by
  induction l1 with
  | nil =>
    cases hq : List.lookup q l2 <;> simp [List.lookup, hq, Option.orElse]
  | cons p ps ih =>
    obtain ⟨k1, v1⟩ := p
    cases hqk : q == k1 <;> simp [List.lookup, hqk, Option.orElse, ih]

theorem lookup_emplace (kv : List (List Nat × List Nat)) (k v q : List Nat) :
    List.lookup q (emplace kv k v) =
      (List.lookup q kv).orElse
        (fun _ => if q == k then some v else none) := by
  unfold emplace
  by_cases hk : kv.any (fun p => p.1 == k) = true
  · simp only [hk, if_true]
    cases hq : List.lookup q kv with
    | some w => simp [Option.orElse, hq]
    | none =>
      cases hqk : q == k with
      | false => simp [Option.orElse, hq, hqk]
      | true =>
        have hqek : q = k := by simpa using hqk
        subst hqek
        have hs := lookup_isSome_of_any kv q hk
        rw [hq] at hs
        simp at hs
  · have hk2 : kv.any (fun p => p.1 == k) = false := by
      cases hb : kv.any (fun p => p.1 == k) with
      | true => exact absurd hb hk
      | false => rfl
    simp only [hk2, Bool.false_eq_true, if_false]
    rw [lookup_append]
    cases hq : List.lookup q kv <;> cases hqk : q == k <;>
      simp [List.lookup, hqk, Option.orElse]

theorem lookup_foldl_emplace (ps : List (List Nat × List Nat))
    (acc : List (List Nat × List Nat)) (q : List Nat) :
    List.lookup q (ps.foldl (fun kv p => emplace kv p.1 p.2) acc) =
      (List.lookup q acc).orElse (fun _ => List.lookup q ps) := by
  induction ps generalizing acc with
  | nil =>
    cases hq : List.lookup q acc <;> simp [List.lookup, hq, Option.orElse]
  | cons p rest ih =>
    obtain ⟨k, v⟩ := p
    simp only [List.foldl_cons]
    rw [ih, lookup_emplace]
    cases hq : List.lookup q acc <;> cases hqk : q == k <;>
      simp [List.lookup, hqk, Option.orElse]

/-- Claim C9 as amended: when the same key occurs on more than one
`key=value` line of the tag block, the value retained by `parseTags` is the
one from the **first** occurrence (`std::unordered_map::emplace` inserts
only when the key is absent): looking a key up in the final tag map agrees
with the first-match lookup over the raw line sequence. -/
theorem claim_C9_first_write_wins (file : List Nat) (tag_addr : Nat)
    (k : List Nat) :
    List.lookup k (PSF_parseTags file tag_addr) =
      List.lookup k (psfLinePairs (psfTagData file tag_addr)) := by
  unfold PSF_parseTags psfTagData
  cases h : PSF_parseTags_allocSize file.length tag_addr with
  | none => simp [psfLinePairs, splitOnNL, List.lookup]
  | some n =>
    have hconv :
        ∀ kv : List (List Nat × List Nat),
          kv.map (fun p => (p.1, cp1252_sjis_to_utf8 p.2)) = kv := by
      intro kv
      unfold cp1252_sjis_to_utf8
      simp
    split <;>
      simp [psfTagMap, hconv, lookup_foldl_emplace, List.lookup, Option.orElse]

/-! ## Claim C3: BRSTM detection -/

/-- Claim C3: `BRSTM::isRomSupported_static` returns a variant id (0) ≥ 0
exactly when the detection info is present with a non-null buffer of at
least `sizeof(BRSTM_Header)` bytes at offset 0, the BRSTM magic matches,
the byte-order mark is one of the two permitted values, the BOM-normalized
chunk count is ≥ 2, and the HEAD and DATA offset/size fields are all
non-zero; in every other case it returns -1 (and, being modelled as a total
function, never throws). -/
theorem claim_C3_brstm_detection (info : Option DetectInfo) :
    BRSTM_isRomSupported_static info =
      if brstmDetectSpec info then 0 else -1 := by
  have hne : ¬ (BRSTM_BOM_HOST = BRSTM_BOM_SWAP) := by decide
  have hne2 : ¬ (BRSTM_BOM_SWAP = BRSTM_BOM_HOST) := by decide
  match info with
  | none => rfl
  | some i =>
    match hp : i.pData with
    | none => simp [BRSTM_isRomSupported_static, brstmDetectSpec, hp]
    | some h =>
      simp only [BRSTM_isRomSupported_static, brstmDetectSpec, hp,
        decide_eq_true_eq]
      by_cases hA : i.addr = 0
      · by_cases hS : brstmHeaderSize ≤ i.size
        · have hS2 : ¬ i.size < brstmHeaderSize := by omega
          by_cases hM : h.magic = cpu_to_be32 BRSTM_MAGIC
          · by_cases hH : h.bom = BRSTM_BOM_HOST
            · have hHS : ¬ h.bom = BRSTM_BOM_SWAP := by
                rw [hH]; exact hne
              simp only [hA, hS2, hM, hH, hHS, brstmChunkChecks,
                not_true, not_false_iff, false_or, or_false, if_true,
                if_false, ite_true, ite_false, hne]
              by_cases hC : h.chunk_count < 2
              · have hC2 : ¬ 2 ≤ h.chunk_count := by omega
                simp [hC, hC2, hS, hne, hne2]
              · have hC2 : 2 ≤ h.chunk_count := by omega
                by_cases hO : h.head_offset = 0 ∨ h.head_size = 0 ∨
                    h.data_offset = 0 ∨ h.data_size = 0
                · rcases hO with h0 | h0 | h0 | h0 <;>
                    simp [hC, hC2, hS, hne, hne2, h0]
                · push_neg at hO
                  simp [hC, hC2, hS, hne, hne2, hO.1, hO.2.1, hO.2.2.1,
                    hO.2.2.2]
            · by_cases hW : h.bom = BRSTM_BOM_SWAP
              · simp only [hA, hS2, hM, hH, hW, brstmChunkChecks,
                  not_true, not_false_iff, false_or, or_false, if_true,
                  if_false, ite_true, ite_false]
                by_cases hC : swab16 h.chunk_count < 2
                · have hC2 : ¬ 2 ≤ swab16 h.chunk_count := by omega
                  simp [hC, hC2, hS, hne, hne2]
                · have hC2 : 2 ≤ swab16 h.chunk_count := by omega
                  by_cases hO : h.head_offset = 0 ∨ h.head_size = 0 ∨
                      h.data_offset = 0 ∨ h.data_size = 0
                  · rcases hO with h0 | h0 | h0 | h0 <;>
                      simp [hC, hC2, hS, hne, hne2, h0]
                  · push_neg at hO
                    simp [hC, hC2, hS, hne, hne2, hO.1, hO.2.1, hO.2.2.1,
                      hO.2.2.2]
              · simp [hA, hS, hM, hH, hW, hS2]
          · simp [hA, hS, hM, hS2]
        · have hS2 : i.size < brstmHeaderSize := by omega
          simp [hS2, hS]
      · simp [hA]

/-! ## Claim C2: BRSTM constructor failure paths -/

theorem brstmInvalid_state (h : BRSTM_Header) (nb : Bool) (r : Nat) :
    (brstmInvalid h nb r).isValid = false ∧
    (brstmInvalid h nb r).file = none ∧
    (brstmInvalid h nb r).fields = [] ∧
    (brstmInvalid h nb r).metaData = none ∧
    (BRSTM_loadFieldData (brstmInvalid h nb r)).1 = -EBADF ∧
    (BRSTM_loadMetaData (brstmInvalid h nb r)).1 = -EBADF := by
  refine ⟨rfl, rfl, rfl, rfl, ?_, ?_⟩ <;> rfl

/-- Claim C2: for every byte source, if the primary-header read is short,
detection fails, a chunk offset/size bounds check fails, the HEAD chunk
magic mismatches, or any chunk seek/read fails, then the constructed
instance has `isValid = false`, its file reference is released (`none`), no
field or metadata state is exposed (both caches empty), and subsequent
`loadFieldData` / `loadMetaData` calls return a negative POSIX error code
rather than data. -/
theorem claim_C2_brstm_ctor_failure (src : BRSTMSource)
    (hf : brstmCtorFailureEvent src = true) :
    (BRSTM_mk (some src)).isValid = false ∧
    (BRSTM_mk (some src)).file = none ∧
    (BRSTM_mk (some src)).fields = [] ∧
    (BRSTM_mk (some src)).metaData = none ∧
    (BRSTM_loadFieldData (BRSTM_mk (some src))).1 < 0 ∧
    (BRSTM_loadMetaData (BRSTM_mk (some src))).1 < 0 := by
  have hneg : (-EBADF : Int) < 0 := by decide
  have final : ∀ h2 nb r, BRSTM_mk (some src) = brstmInvalid h2 nb r →
      (BRSTM_mk (some src)).isValid = false ∧
      (BRSTM_mk (some src)).file = none ∧
      (BRSTM_mk (some src)).fields = [] ∧
      (BRSTM_mk (some src)).metaData = none ∧
      (BRSTM_loadFieldData (BRSTM_mk (some src))).1 < 0 ∧
      (BRSTM_loadMetaData (BRSTM_mk (some src))).1 < 0 := by
    intro h2 nb r heq
    rw [heq]
    obtain ⟨a, b, c, d, e, f⟩ := brstmInvalid_state h2 nb r
    exact ⟨a, b, c, d, by rw [e]; exact hneg, by rw [f]; exact hneg⟩
  unfold brstmCtorFailureEvent at hf
  cases hh : src.header with
  | none => exact final _ _ _ (by simp only [BRSTM_mk, hh]; rfl)
  | some h =>
    rw [hh] at hf
    simp only [Bool.or_eq_true, decide_eq_true_eq,
      Option.isNone_iff_eq_none] at hf
    by_cases hd :
        BRSTM_isRomSupported_static (some ⟨0, brstmHeaderSize, some h⟩) < 0
    · exact final _ _ _ (by simp only [BRSTM_mk, hh]; simp [hd]; rfl)
    · rcases hf with hf | hf
      · exact absurd hf hd
      · by_cases hb : brstm32_to_cpu (h.bom == BRSTM_BOM_SWAP) h.head_offset = 0 ∨
            brstm32_to_cpu (h.bom == BRSTM_BOM_SWAP) h.head_size < brstmHeadHeaderSize
        · exact final _ _ _ (by simp only [BRSTM_mk, hh]; simp [hd, hb]; rfl)
        · cases hrh : src.readHeadHeader
              (brstm32_to_cpu (h.bom == BRSTM_BOM_SWAP) h.head_offset) with
          | none =>
            exact final _ _ _
              (by simp only [BRSTM_mk, hh]; simp [hd, hb, hrh]; rfl)
          | some hh2 =>
            rw [hrh] at hf
            simp only [Bool.or_eq_true, decide_eq_true_eq,
              Option.isNone_iff_eq_none, reduceCtorEq, or_false,
              false_or] at hf
            by_cases hm : hh2.magic ≠ cpu_to_be32 BRSTM_HEAD_MAGIC
            · exact final _ _ _
                (by simp only [BRSTM_mk, hh]; simp [hd, hb, hrh, hm]; rfl)
            · by_cases h1 : brstm32_to_cpu (h.bom == BRSTM_BOM_SWAP)
                  hh2.head1_offset < brstmHeadHeaderSize - 8
              · exact final _ _ _
                  (by simp only [BRSTM_mk, hh]; simp [hd, hb, hrh, hm, h1]; rfl)
              · rcases hf with hf | (hf | hf) | hf
                · exact absurd hf hb
                · exact absurd hf hm
                · exact absurd hf h1
                · exact final _ _ _
                    (by simp only [BRSTM_mk, hh]
                        simp [hd, hb, hrh, hm, h1, hf]; rfl)

/-- Claim C2 witness: a source whose primary-header read is short satisfies
the failure event, and the constructed instance is invalid with its file
released and both loads failing. -/
theorem claim_C2_witness :
    brstmCtorFailureEvent brstmShortSource = true ∧
    ((BRSTM_mk (some brstmShortSource)).isValid = false ∧
     (BRSTM_mk (some brstmShortSource)).file = none ∧
     (BRSTM_mk (some brstmShortSource)).fields = [] ∧
     (BRSTM_mk (some brstmShortSource)).metaData = none ∧
     (BRSTM_loadFieldData (BRSTM_mk (some brstmShortSource))).1 < 0 ∧
     (BRSTM_loadMetaData (BRSTM_mk (some brstmShortSource))).1 < 0) :=
  ⟨rfl, claim_C2_brstm_ctor_failure brstmShortSource rfl⟩

/-! ## Claim C1: repeated field / metadata loads -/

/-- Claim C1 counterexample: on a concrete valid BRSTM instance the first
`loadFieldData` call returns 7 (the field count) but the second returns 0
(the early-out for already-loaded fields returns `0`, not the cached
count), and likewise `loadMetaData` returns 3 then 0 — so a repeated load
does **not** return the identical count the first call returned. -/
theorem claim_C1_counterexample :
    (BRSTM_loadFieldData (BRSTM_mk (some brstmSampleSource))).1 = 7 ∧
    (BRSTM_loadFieldData
      ((BRSTM_loadFieldData (BRSTM_mk (some brstmSampleSource))).2)).1 = 0 ∧
    (BRSTM_loadFieldData
        ((BRSTM_loadFieldData (BRSTM_mk (some brstmSampleSource))).2)).1 ≠
      (BRSTM_loadFieldData (BRSTM_mk (some brstmSampleSource))).1 ∧
    (BRSTM_loadMetaData (BRSTM_mk (some brstmSampleSource))).1 = 3 ∧
    (BRSTM_loadMetaData
      ((BRSTM_loadMetaData (BRSTM_mk (some brstmSampleSource))).2)).1 = 0 :=
  ⟨rfl, rfl, by decide, rfl, rfl⟩

/-- Claim C1 as amended: once the field list (resp. the metadata object) is
populated, a repeated `loadFieldData` (resp. `loadMetaData`) call returns 0
— the "already loaded" success indicator, not the first call's count — and
leaves the instance completely unchanged: no bytes are read and no parsing
is re-run (the returned state, including the byte-read counter, is the
input state). -/
theorem claim_C1_repeat_load_cached_noop (inst : BRSTMInstance) :
    (inst.fields ≠ [] → BRSTM_loadFieldData inst = (0, inst)) ∧
    (inst.metaData.isSome = true → BRSTM_loadMetaData inst = (0, inst)) := by
  constructor
  · intro h
    unfold BRSTM_loadFieldData
    simp [h]
  · intro h
    unfold BRSTM_loadMetaData
    cases hm : inst.metaData with
    | none => rw [hm] at h; simp at h
    | some md => rfl

/-- Claim C1 witness: the amended theorem applied to the concrete instance
after its first field load and after its first metadata load. -/
theorem claim_C1_witness :
    ((BRSTM_loadFieldData (BRSTM_mk (some brstmSampleSource))).2.fields ≠ [] ∧
      BRSTM_loadFieldData
          ((BRSTM_loadFieldData (BRSTM_mk (some brstmSampleSource))).2) =
        (0, (BRSTM_loadFieldData (BRSTM_mk (some brstmSampleSource))).2)) ∧
    ((BRSTM_loadMetaData
        (BRSTM_mk (some brstmSampleSource))).2.metaData.isSome = true ∧
      BRSTM_loadMetaData
          ((BRSTM_loadMetaData (BRSTM_mk (some brstmSampleSource))).2) =
        (0, (BRSTM_loadMetaData (BRSTM_mk (some brstmSampleSource))).2)) :=
  ⟨⟨by decide, (claim_C1_repeat_load_cached_noop _).1 (by decide)⟩,
   ⟨by decide, (claim_C1_repeat_load_cached_noop _).2 (by decide)⟩⟩

/-! ## Claim C10: valid PSF with an absent or empty tag section -/

/-- Claim C10: for a PSF instance that is valid and has its file open but
whose tag section parses to nothing, `loadMetaData` returns `-EIOErr` without
creating the metadata cache, a second `loadMetaData` call re-parses the tag
region (the parse counter advances twice; nothing was cached, so it does
not return a cached 0), while `loadFieldData` on the same instance still
succeeds, returning 1 with exactly the System field. -/
theorem claim_C10_psf_empty_tags (inst : PSFInstance) (f : List Nat)
    (hfile : inst.file = some f) (hvalid : inst.isValid = true)
    (hfields : inst.fields = []) (hmd : inst.metaData = none)
    (htags : PSF_parseTags f (PSF_tagAddr inst.psfHeader) = []) :
    (PSF_loadMetaData inst).1 = -EIOErr ∧
    (PSF_loadMetaData inst).2.metaData = none ∧
    (PSF_loadMetaData (PSF_loadMetaData inst).2).1 = -EIOErr ∧
    (PSF_loadMetaData (PSF_loadMetaData inst).2).2.tagParseCount =
      inst.tagParseCount + 2 ∧
    (PSF_loadFieldData inst).1 = 1 ∧
    (PSF_loadFieldData inst).2.fields.map Prod.fst = ["System"] := by
  obtain ⟨fl, vl, hd, fs, md, tc⟩ := inst
  simp only at hfile hvalid hfields hmd htags ⊢
  subst hfile hvalid hfields hmd
  simp only [PSF_loadMetaData, PSF_loadFieldData, htags]
  norm_num [htags]

/-- Claim C10 witness: the theorem applied to the instance constructed from
the 16-byte tag-less PSF file. -/
theorem claim_C10_witness :
    ((PSF_mk (some psfNoTagFile)).file = some psfNoTagFile ∧
     (PSF_mk (some psfNoTagFile)).isValid = true ∧
     (PSF_mk (some psfNoTagFile)).fields = [] ∧
     (PSF_mk (some psfNoTagFile)).metaData = none ∧
     PSF_parseTags psfNoTagFile
       (PSF_tagAddr (PSF_mk (some psfNoTagFile)).psfHeader) = []) ∧
    ((PSF_loadMetaData (PSF_mk (some psfNoTagFile))).1 = -EIOErr ∧
     (PSF_loadMetaData (PSF_mk (some psfNoTagFile))).2.metaData = none ∧
     (PSF_loadMetaData
       (PSF_loadMetaData (PSF_mk (some psfNoTagFile))).2).1 = -EIOErr ∧
     (PSF_loadMetaData
         (PSF_loadMetaData (PSF_mk (some psfNoTagFile))).2).2.tagParseCount =
       (PSF_mk (some psfNoTagFile)).tagParseCount + 2 ∧
     (PSF_loadFieldData (PSF_mk (some psfNoTagFile))).1 = 1 ∧
     (PSF_loadFieldData
       (PSF_mk (some psfNoTagFile))).2.fields.map Prod.fst = ["System"]) :=
  ⟨⟨rfl, rfl, rfl, rfl, rfl⟩,
   claim_C10_psf_empty_tags (PSF_mk (some psfNoTagFile)) psfNoTagFile
     rfl rfl rfl rfl rfl⟩

end RomProps
